import Mathlib

/-
Shallow embedding of the redux-actionz library (src/index.ts).

The library builds Redux action creators and reducers:
  action / asyncAction       build action creators,
  handle                     builds a one-entry reducer map from a creator,
  createReducer              builds a full-replace reducer from a map,
  createReducerAppend        builds a shallow-merge reducer from a map,
  handleActions / handleActionsAppend combine several maps (objectAssign)
                             and feed the result to the constructors above.

JavaScript string-keyed objects (reducer maps, and the states handed to
objectAssign in the append flavor) are modelled as partial functions from
String to values: a key maps to some value when present, none when absent.
The uninitialized Redux state sentinel (undefined) is modelled by Option:
a reducer takes an Option S state, and the TS default parameter
  (state: S = initialState, ...)
is modelled by Option.getD initialState.
-/

namespace ReduxActionz

/-- An action: discriminator string plus payload, as in src/index.ts
(interface Action). -/
structure Action (P : Type) where
  type : String
  payload : P
  deriving Repr, DecidableEq

/-- A JavaScript string-keyed object with values of type V, modelled as a
partial function from keys to values. -/
def JsObj (V : Type) : Type := String → Option V

/-- The empty object, target of objectAssign in the source. -/
def emptyObj {V : Type} : JsObj V := fun _ => none

/-- One step of Object.assign: every key present in b overwrites the
corresponding key of a; keys absent from b keep the value of a. -/
def assignPair {V : Type} (a b : JsObj V) : JsObj V :=
  fun k =>
    match b k with
    | some v => some v
    | none => a k

/-- Embedding of objectAssign from the object-assign package as used in the
source: objectAssign starting from an empty target object, sources applied
left to right, so keys from later sources overwrite earlier ones. -/
def objectAssign {V : Type} (maps : List (JsObj V)) : JsObj V :=
  maps.foldl assignPair emptyObj

/-- A singleton object with one key t bound to v, modelling the object
literal with a single computed key in the source. -/
def singletonObj {V : Type} (t : String) (v : V) : JsObj V :=
  fun k => if k = t then some v else none

/-- An action creator as returned by the action function in the source: the
creator itself (a function from data to an action) together with its
toString override, which exposes the discriminator string. -/
structure ActionCreator (D P : Type) where
  create : D → Action P
  toString : String

/-- Embedding of the action function from src/index.ts:
the returned creator applies the effect to its input and wraps the result
with the discriminator; its toString returns the discriminator. -/
def action {D P : Type} (type : String) (effect : D → P) : ActionCreator D P :=
  { create := fun data => { type := type, payload := effect data }
    toString := type }

/-- The TS signature gives effect the default value id; calling action with
no effect is therefore calling it with the identity. -/
def actionNoEffect {D : Type} (type : String) : ActionCreator D D :=
  action type id

/-- A state monad counting effect invocations, used to embed the evaluation
order of the action function: constructing the creator runs no effect, each
call of the creator runs the effect exactly once. -/
def CountM (α : Type) : Type := Nat → α × Nat

/-- Return for CountM: no effect invocation. -/
def pureC {α : Type} (a : α) : CountM α := fun n => (a, n)

/-- Sequencing for CountM. -/
def bindC {α β : Type} (x : CountM α) (f : α → CountM β) : CountM β :=
  fun n =>
    let r := x n
    f r.1 r.2

/-- An instrumented effect invocation: computes the effect and bumps the
invocation counter by one. -/
def callEffect {D P : Type} (effect : D → P) (data : D) : CountM P :=
  fun n => (effect data, n + 1)

/-- Instrumented embedding of the action function, mirroring its control
flow: the body of the returned creator first evaluates effect(data), then
builds the action object; nothing outside that body invokes the effect, so
construction itself performs no invocation. -/
def actionCounting {D P : Type} (type : String) (effect : D → P) :
    CountM (D → CountM (Action P)) :=
  pureC (fun data =>
    bindC (callEffect effect data) (fun payload =>
      pureC { type := type, payload := payload }))

/-- The effects argument of asyncAction: each lifecycle slot may carry an
effect or be absent, in which case the source falls back to id via
effects.start || id (at the TS default instantiation Pi = Di, the only one
at which omitting an effect is type-correct). -/
structure AsyncActionEffects (D1 D2 D3 : Type) where
  start : Option (D1 → D1)
  success : Option (D2 → D2)
  fail : Option (D3 → D3)

/-- The result of asyncAction: three action creators keyed start, success
and fail (interface AsyncActionCreator in the source). -/
structure AsyncActionCreator (D1 D2 D3 : Type) where
  start : ActionCreator D1 D1
  success : ActionCreator D2 D2
  fail : ActionCreator D3 D3

/-- Embedding of the asyncAction function from src/index.ts: three creators
built by action with discriminators type:start, type:success, type:fail,
each using the given effect when present and id otherwise. -/
def asyncAction {D1 D2 D3 : Type} (type : String)
    (effects : AsyncActionEffects D1 D2 D3) : AsyncActionCreator D1 D2 D3 :=
  { start := action (type ++ ":start") (effects.start.getD id)
    success := action (type ++ ":success") (effects.success.getD id)
    fail := action (type ++ ":fail") (effects.fail.getD id) }

/-- Embedding of the handle function from src/index.ts: the object literal
with the single computed key action.toString() bound to the reducer. -/
def handle {D P S : Type} (action : ActionCreator D P) (reducer : S → P → S) :
    JsObj (S → P → S) :=
  singletonObj action.toString reducer

/-- Embedding of createReducer from src/index.ts. The returned reducer takes
an Option S state (undefined modelled as none, with the TS default parameter
substituting initialState), looks the action type up in the map, applies the
handler when present and returns the state unchanged otherwise. -/
def createReducer {S P : Type} (reducerMap : JsObj (S → P → S))
    (initialState : S) : Option S → Action P → S :=
  fun stateOpt act =>
    let state := stateOpt.getD initialState
    match reducerMap act.type with
    | some handler => handler state act.payload
    | none => state

/-- Embedding of createReducerAppend from src/index.ts, at object-shaped
states (the only states on which objectAssign is meaningful): when the
action type has a handler, the handler returns an object holding a subset
of the state keys, and the reducer returns objectAssign of the empty
object, the state and that object; otherwise the state is returned
unchanged. -/
def createReducerAppend {V P : Type}
    (reducerMap : JsObj (JsObj V → P → JsObj V)) (initialState : JsObj V) :
    Option (JsObj V) → Action P → JsObj V :=
  fun stateOpt act =>
    let state := stateOpt.getD initialState
    match reducerMap act.type with
    | some handler => objectAssign [state, handler state act.payload]
    | none => state

/-- Embedding of handleActions from src/index.ts:
createReducer applied to objectAssign of the given maps. -/
def handleActions {S P : Type} (reducerMaps : List (JsObj (S → P → S)))
    (initialState : S) : Option S → Action P → S :=
  createReducer (objectAssign reducerMaps) initialState

/-- Embedding of handleActionsAppend from src/index.ts:
createReducerAppend applied to objectAssign of the given maps. -/
def handleActionsAppend {V P : Type}
    (reducerMaps : List (JsObj (JsObj V → P → JsObj V)))
    (initialState : JsObj V) : Option (JsObj V) → Action P → JsObj V :=
  createReducerAppend (objectAssign reducerMaps) initialState

/-- Spec-side definition of combining handler mappings, written after the
words of the spec: the combined map holds the union of all keys, and on a
key present in several mappings the handler from the later mapping in the
sequence wins. -/
def combineHandlerMappings_spec {V : Type} : List (JsObj V) → JsObj V
  | [] => emptyObj
  | m :: ms => fun k =>
      match combineHandlerMappings_spec ms k with
      | some v => some v
      | none => m k

/-- Folding assignPair over a list of maps looks each key up from the later
maps first, falling back to the accumulator. -/
theorem foldl_assignPair_apply {V : Type} (ms : List (JsObj V))
    (acc : JsObj V) (k : String) :
    (ms.foldl assignPair acc) k =
      match combineHandlerMappings_spec ms k with
      | some v => some v
      | none => acc k := by
  induction ms generalizing acc with
  | nil => simp [combineHandlerMappings_spec, emptyObj]
  | cons m ms ih =>
      simp only [List.foldl_cons, ih, combineHandlerMappings_spec, assignPair]
      cases combineHandlerMappings_spec ms k <;> cases m k <;> rfl

/-- objectAssign computes exactly the spec-side combination. -/
theorem objectAssign_apply {V : Type} (ms : List (JsObj V)) (k : String) :
    objectAssign ms k = combineHandlerMappings_spec ms k := by
  unfold objectAssign
  rw [foldl_assignPair_apply]
  cases combineHandlerMappings_spec ms k <;> rfl

/-
Concrete objects used by witnesses and counterexamples.
-/

/-- A one-entry reducer map over Int states: key inc adds the payload. -/
def incMap : JsObj (Int → Int → Int) :=
  singletonObj "inc" (fun s p => s + p)

/-- The two-entry map of the end-to-end scenario: inc adds the payload,
dec subtracts it. -/
def incDecMap : JsObj (Int → Int → Int) :=
  fun k =>
    if k = "inc" then some (fun s p => s + p)
    else if k = "dec" then some (fun s p => s - p)
    else none

/-- The state with top-level keys a := 1 and b := 2 of the merge law. -/
def mergeState : JsObj Nat :=
  fun k => if k = "a" then some 1 else if k = "b" then some 2 else none

/-- The handler of the merge law: returns the one-key object b := payload. -/
def mergeHandler : JsObj Nat → Nat → JsObj Nat :=
  fun _ p => singletonObj "b" p

/-- The one-entry append map of the merge law, key t. -/
def mergeMap : JsObj (JsObj Nat → Nat → JsObj Nat) :=
  singletonObj "t" mergeHandler

/-- The expected merge result: a := 1 and b := 9. -/
def mergeExpected : JsObj Nat :=
  fun k => if k = "a" then some 1 else if k = "b" then some 9 else none

/-- Claim C6: for every discriminator t, effect f and input d, the creator
returned by action satisfies create d = Action.mk t (f d); with the default
identity effect the payload is d itself; and in the instrumented model the
effect is invoked zero times while constructing the creator and exactly once
per call of the creator, at call time. -/
theorem claim6_make_action {D P : Type} (t : String) (f : D → P) (d : D)
    (n m : Nat) :
    ((action t f).create d = { type := t, payload := f d })
  ∧ ((actionNoEffect t).create d = { type := t, payload := d })
  ∧ ((actionCounting t f) n).2 = n
  ∧ (((actionCounting t f) n).1 d m).1 = { type := t, payload := f d }
  ∧ (((actionCounting t f) n).1 d m).2 = m + 1 :=
  ⟨rfl, rfl, rfl, rfl, rfl⟩

/-- Claim C7: asyncAction base effects is exactly the record of the three
creators built by action with discriminators base:start, base:success and
base:fail, each creator using the corresponding effect from effects when
present and the identity effect otherwise; in particular asyncAction on x
yields discriminators x:start, x:success, x:fail. -/
theorem claim7_async_action {D1 D2 D3 : Type} (t : String)
    (e : AsyncActionEffects D1 D2 D3)
    (f1 : D1 → D1) (f2 : D2 → D2) (f3 : D3 → D3)
    (d1 : D1) (d2 : D2) (d3 : D3) :
    (asyncAction t e =
      { start := action (t ++ ":start") (e.start.getD id)
        success := action (t ++ ":success") (e.success.getD id)
        fail := action (t ++ ":fail") (e.fail.getD id) })
  ∧ ((asyncAction t e).start.toString = t ++ ":start")
  ∧ ((asyncAction t e).success.toString = t ++ ":success")
  ∧ ((asyncAction t e).fail.toString = t ++ ":fail")
  ∧ ((asyncAction t ⟨some f1, some f2, some f3⟩).start.create d1 =
      { type := t ++ ":start", payload := f1 d1 })
  ∧ ((asyncAction t ⟨some f1, some f2, some f3⟩).success.create d2 =
      { type := t ++ ":success", payload := f2 d2 })
  ∧ ((asyncAction t ⟨some f1, some f2, some f3⟩).fail.create d3 =
      { type := t ++ ":fail", payload := f3 d3 })
  ∧ ((asyncAction t (⟨none, none, none⟩ : AsyncActionEffects D1 D2 D3)).start.create d1 =
      { type := t ++ ":start", payload := d1 })
  ∧ ((asyncAction t (⟨none, none, none⟩ : AsyncActionEffects D1 D2 D3)).success.create d2 =
      { type := t ++ ":success", payload := d2 })
  ∧ ((asyncAction t (⟨none, none, none⟩ : AsyncActionEffects D1 D2 D3)).fail.create d3 =
      { type := t ++ ":fail", payload := d3 })
  ∧ ((asyncAction "x" (⟨none, none, none⟩ : AsyncActionEffects D1 D2 D3)).start.toString
      = "x:start")
  ∧ ((asyncAction "x" (⟨none, none, none⟩ : AsyncActionEffects D1 D2 D3)).success.toString
      = "x:success")
  ∧ ((asyncAction "x" (⟨none, none, none⟩ : AsyncActionEffects D1 D2 D3)).fail.toString
      = "x:fail") :=
  ⟨rfl, rfl, rfl, rfl, rfl, rfl, rfl, rfl, rfl, rfl, rfl, rfl, rfl⟩

/-- Claim C10: handle c h is a mapping with exactly one entry, keyed by the
discriminator string that the toString of the creator c exposes, with value
h; for a creator built by action from discriminator t, that key is t. -/
theorem claim10_handle {D P S : Type} (c : ActionCreator D P)
    (h : S → P → S) :
    handle c h c.toString = some h
  ∧ (∀ k, k ≠ c.toString → handle c h k = none)
  ∧ (∀ (t : String) (f : D → P), handle (action t f) h t = some h) := by
  refine ⟨?_, ?_, ?_⟩
  · simp [handle, singletonObj]
  · intro k hk
    simp [handle, singletonObj, hk]
  · intro t f
    simp [handle, singletonObj, action]

/-- Witness for claim C10 at a concrete creator, handler and foreign key. -/
theorem claim10_witness :
    handle (action "t" (id : Nat → Nat)) (fun (s : Nat) (_ : Nat) => s) "u"
      = none :=
  (claim10_handle (action "t" (id : Nat → Nat))
    (fun (s : Nat) (_ : Nat) => s)).2.1 "u" (by decide)

/-- Claim C2: a reducer built by createReducer from map m and initial state
I, called on the uninitialized sentinel with an action whose type is a key
of m, applies the matching handler to the initial state: the result is
handler I payload, not a skipped handler. -/
theorem claim2_handler_applied_on_first_call {S P : Type}
    (m : JsObj (S → P → S)) (I : S) (a : Action P) (hd : S → P → S)
    (hm : m a.type = some hd) :
    createReducer m I none a = hd I a.payload := by
  simp [createReducer, hm]

/-- Witness for claim C2: from the uninitialized sentinel, inc with payload
3 over initial state 0 yields 3. -/
theorem claim2_witness :
    createReducer incMap 0 none { type := "inc", payload := (3 : Int) }
      = 3 :=
  claim2_handler_applied_on_first_call incMap 0
    { type := "inc", payload := 3 } (fun s p => s + p) rfl

/-- Claim C3: both reducer flavors, on a defined state and an action whose
type is not a key of their map, return the input state itself, unchanged. -/
theorem claim3_unhandled_is_identity {S P V Q : Type}
    (m : JsObj (S → P → S)) (I : S) (s : S) (a : Action P)
    (hm : m a.type = none)
    (m2 : JsObj (JsObj V → Q → JsObj V)) (I2 s2 : JsObj V) (a2 : Action Q)
    (hm2 : m2 a2.type = none) :
    createReducer m I (some s) a = s
  ∧ createReducerAppend m2 I2 (some s2) a2 = s2 := by
  constructor
  · simp [createReducer, hm]
  · simp [createReducerAppend, hm2]

/-- Witness for claim C3 at concrete maps without the dispatched key. -/
theorem claim3_witness :
    createReducer incMap 0 (some 7) { type := "dummy", payload := (0 : Int) }
      = 7
  ∧ createReducerAppend mergeMap emptyObj (some mergeState)
      { type := "dummy", payload := (0 : Nat) } = mergeState :=
  claim3_unhandled_is_identity incMap 0 7
    { type := "dummy", payload := 0 } rfl
    mergeMap emptyObj mergeState { type := "dummy", payload := 0 } rfl

/-- Claim C8: with initial state 0 and the map sending inc to addition and
dec to subtraction, dispatching inc 10 from the uninitialized sentinel and
then dec 5 yields final state 5. -/
theorem claim8_end_to_end :
    createReducer incDecMap 0 none
      ((actionNoEffect "inc").create (10 : Int)) = 10
  ∧ createReducer incDecMap 0
      (some (createReducer incDecMap 0 none
        ((actionNoEffect "inc").create (10 : Int))))
      ((actionNoEffect "dec").create (5 : Int)) = 5 := by
  constructor
  · rfl
  · rfl

/-- Claim C1, counterexample: the initialization law fails as stated. The
reducer built from initial state 0 and a handler for inc, called on the
uninitialized sentinel with action inc 1, returns 1, not the configured
initial state 0: the handler is applied, not ignored. -/
theorem claim1_counterexample :
    ¬ (createReducer incMap 0 none { type := "inc", payload := (1 : Int) }
        = 0) := by
  decide

/-- Claim C1, amended: on the uninitialized sentinel, both reducer flavors
return the configured initial state exactly when no handler is registered
for the action discriminator; when one is, it is applied with the initial
state substituted for the missing state (full-replace returns
handler I payload, append returns the merge of I with handler I payload). -/
theorem claim1_amended_initialization {S P V Q : Type}
    (m : JsObj (S → P → S)) (I : S) (a : Action P)
    (m2 : JsObj (JsObj V → Q → JsObj V)) (I2 : JsObj V) (a2 : Action Q) :
    (m a.type = none → createReducer m I none a = I)
  ∧ (∀ hd, m a.type = some hd →
      createReducer m I none a = hd I a.payload)
  ∧ (m2 a2.type = none → createReducerAppend m2 I2 none a2 = I2)
  ∧ (∀ hd2, m2 a2.type = some hd2 →
      createReducerAppend m2 I2 none a2 =
        objectAssign [I2, hd2 I2 a2.payload]) := by
  refine ⟨?_, ?_, ?_, ?_⟩
  · intro hm
    simp [createReducer, hm]
  · intro hd hm
    simp [createReducer, hm]
  · intro hm2
    simp [createReducerAppend, hm2]
  · intro hd2 hm2
    simp [createReducerAppend, hm2]

/-- Witness for the amended claim C1, at concrete maps with and without a
handler for the dispatched discriminator. -/
theorem claim1_witness :
    createReducer incMap 0 none { type := "dummy", payload := (0 : Int) } = 0
  ∧ createReducer incMap 0 none { type := "inc", payload := (1 : Int) } = 1
  ∧ createReducerAppend mergeMap emptyObj none
      { type := "dummy", payload := (0 : Nat) } = emptyObj
  ∧ createReducerAppend mergeMap emptyObj none { type := "t", payload := 9 }
      = objectAssign [emptyObj, mergeHandler emptyObj 9] :=
  ⟨(claim1_amended_initialization incMap 0 { type := "dummy", payload := 0 }
      mergeMap emptyObj { type := "dummy", payload := 0 }).1 rfl,
   (claim1_amended_initialization incMap 0 { type := "inc", payload := 1 }
      mergeMap emptyObj { type := "dummy", payload := 0 }).2.1
      (fun s p => s + p) rfl,
   (claim1_amended_initialization incMap 0 { type := "dummy", payload := 0 }
      mergeMap emptyObj { type := "dummy", payload := 0 }).2.2.1 rfl,
   (claim1_amended_initialization incMap 0 { type := "dummy", payload := 0 }
      mergeMap emptyObj { type := "t", payload := 9 }).2.2.2
      mergeHandler rfl⟩

/-- Claim C4: when the dispatched discriminator has a handler in an append
reducer, the result agrees with the handler partial result on every key the
partial result carries and with the previous state on every other key; in
particular from state a := 1, b := 2 with handler returning b := payload
and payload 9, the result is a := 1, b := 9. -/
theorem claim4_shallow_merge {V P : Type}
    (m : JsObj (JsObj V → P → JsObj V)) (I s : JsObj V) (a : Action P)
    (hd : JsObj V → P → JsObj V) (hm : m a.type = some hd) :
    (∀ k, createReducerAppend m I (some s) a k =
      match hd s a.payload k with
      | some v => some v
      | none => s k)
  ∧ createReducerAppend mergeMap emptyObj (some mergeState)
      { type := "t", payload := 9 } = mergeExpected := by
  constructor
  · intro k
    simp only [createReducerAppend, Option.getD, hm, objectAssign,
      List.foldl, assignPair, emptyObj]
    cases hd s a.payload k <;> cases s k <;> rfl
  · funext k
    by_cases hb : k = "b"
    · subst hb; rfl
    · by_cases ha : k = "a"
      · subst ha; rfl
      · simp [createReducerAppend, mergeMap, mergeHandler, mergeState,
          mergeExpected, singletonObj, objectAssign, List.foldl, assignPair,
          emptyObj, ha, hb]

/-- Witness for claim C4: the merged state holds 9 at key b. -/
theorem claim4_witness :
    createReducerAppend mergeMap emptyObj (some mergeState)
      { type := "t", payload := 9 } "b" = some 9 :=
  (claim4_shallow_merge mergeMap emptyObj mergeState
    { type := "t", payload := 9 } mergeHandler rfl).1 "b"

/-- The spec-side combination of mappings holds a key exactly when one of
the mappings holds it. -/
theorem combineHandlerMappings_spec_isSome {V : Type}
    (ms : List (JsObj V)) (k : String) :
    (combineHandlerMappings_spec ms k).isSome ↔
      ∃ m ∈ ms, (m k).isSome := by
  induction ms with
  | nil => simp [combineHandlerMappings_spec, emptyObj]
  | cons m ms ih =>
      simp only [combineHandlerMappings_spec, List.mem_cons]
      cases hms : combineHandlerMappings_spec ms k with
      | some v =>
          simp only [Option.isSome_some, true_iff]
          rcases ih.mp (by simp [hms]) with ⟨m0, hm0, hsome⟩
          exact ⟨m0, Or.inr hm0, hsome⟩
      | none =>
          rw [hms] at ih
          simp only [Option.isSome_none, Bool.false_eq_true, false_iff,
            not_exists] at ih
          constructor
          · intro hk
            exact ⟨m, Or.inl rfl, hk⟩
          · rintro ⟨m0, hm0 | hm0, hsome⟩
            · rw [← hm0]; exact hsome
            · exact absurd ⟨hm0, hsome⟩ (ih m0)

/-- Claim C5: combining handler mappings with objectAssign yields the union
of all keys; on a shared key the handler from the later mapping wins, with
no error raised; in particular combining two singleton mappings on the same
key t behaves as the later one. -/
theorem claim5_combine_later_wins {H : Type} (ms : List (JsObj H))
    (k : String) (m1 m2 : JsObj H) (v : H) (hv : m2 k = some v)
    (t : String) (h1 h2 : H) :
    ((objectAssign ms k).isSome ↔ ∃ m ∈ ms, (m k).isSome)
  ∧ objectAssign [m1, m2] k = some v
  ∧ (∀ k2, objectAssign [singletonObj t h1, singletonObj t h2] k2 =
      singletonObj t h2 k2) := by
  refine ⟨?_, ?_, ?_⟩
  · rw [objectAssign_apply]
    exact combineHandlerMappings_spec_isSome ms k
  · simp [objectAssign, List.foldl, assignPair, hv]
  · intro k2
    by_cases hk : k2 = t <;>
      simp [objectAssign, List.foldl, assignPair, singletonObj, emptyObj, hk]

/-- Witness for claim C5 at concrete singleton mappings over Nat. -/
theorem claim5_witness :
    ((objectAssign [singletonObj "k" (5 : Nat)] "k").isSome ↔
      ∃ m ∈ [singletonObj "k" (5 : Nat)], (m "k").isSome)
  ∧ objectAssign [emptyObj, singletonObj "k" (5 : Nat)] "k" = some 5
  ∧ (∀ k2, objectAssign
      [singletonObj "t" (1 : Nat), singletonObj "t" (2 : Nat)] k2 =
        singletonObj "t" (2 : Nat) k2) :=
  claim5_combine_later_wins [singletonObj "k" (5 : Nat)] "k"
    emptyObj (singletonObj "k" 5) 5 rfl "t" 1 2

/-- Claim C9: the composite helpers add no semantics: handleActions over a
sequence of mappings is extensionally the full-replace reducer built from
the spec-side combination of those mappings, and handleActionsAppend is
extensionally the append reducer built from that combination. -/
theorem claim9_composite_refinement {S P V Q : Type}
    (ms : List (JsObj (S → P → S))) (I : S) (st : Option S) (a : Action P)
    (ms2 : List (JsObj (JsObj V → Q → JsObj V))) (I2 : JsObj V)
    (st2 : Option (JsObj V)) (a2 : Action Q) :
    handleActions ms I st a =
      createReducer (combineHandlerMappings_spec ms) I st a
  ∧ handleActionsAppend ms2 I2 st2 a2 =
      createReducerAppend (combineHandlerMappings_spec ms2) I2 st2 a2 := by
  constructor
  · simp only [handleActions, createReducer]
    rw [objectAssign_apply]
  · simp only [handleActionsAppend, createReducerAppend]
    rw [objectAssign_apply]

end ReduxActionz
